import Mathlib

/-!
Verification of the GraphCounter core of the dep-crawler fixture
(`src/mock-c-project/src/graph.c` and its caller `src/mock-c-project/src/main.c`).

The C module keeps two static `int` counters `nodes` and `edges`.  We embed the
state as a pair of unbounded integers (the claims all assume no overflow) and,
separately, give an overflow-checked variant of `graph_add_node` in which the
undefined behavior of signed `int` overflow is made explicit as an error
outcome, as the specification's CounterOverflow taxonomy requires.
-/

namespace GraphCounter

/-- Modelled from the spec: `add` is declared in `util/math.h`, whose source is
not among the provided files; the spec states that `addNode` "increments
`nodeCount` by 1" and, conditionally, "increments `edgeCount` by 1", so `add`
is plain integer addition. -/
def add (a b : Int) : Int := a + b

/-- The mutable state of `graph.c`: the two file-scope counters
`static int nodes` and `static int edges`. -/
structure GraphState where
  nodes : Int
  edges : Int
  deriving DecidableEq, Repr

/-- The state established by static initialization in `graph.c`:
`static int nodes = 0; static int edges = 0;`. -/
def initialState : GraphState := ⟨0, 0⟩

/-- `graph_init` from `graph.c`: sets both counters to zero, regardless of the
previous state. -/
def graph_init (_s : GraphState) : GraphState := ⟨0, 0⟩

/-- `graph_add_node` from `graph.c`: ignores `id`, increments `nodes` first,
then increments `edges` when the updated `nodes` exceeds 1, and returns the
updated `nodes` together with the new state. -/
def graph_add_node (_id : Int) (s : GraphState) : Int × GraphState :=
  let nodes := add s.nodes 1
  let edges := if nodes > 1 then add s.edges 1 else s.edges
  (nodes, ⟨nodes, edges⟩)

/-- `graph_edge_count` from `graph.c`: returns the current `edges` counter and
leaves the state untouched. -/
def graph_edge_count (s : GraphState) : Int × GraphState := (s.edges, s)

/-- Runs a sequence of `graph_add_node` calls, collecting the returned values
in order along with the final state. -/
def runAdds : List Int → GraphState → List Int × GraphState
  | [], s => ([], s)
  | id :: ids, s =>
    let r := graph_add_node id s
    let rest := runAdds ids r.2
    (r.1 :: rest.1, rest.2)

/-- Largest value of a 32-bit C `int`. -/
def INT_MAX : Int := 2147483647

/-- Smallest value of a 32-bit C `int`. -/
def INT_MIN : Int := -2147483648

/-- A value representable in a 32-bit C `int`. -/
def inRange (v : Int) : Prop := INT_MIN ≤ v ∧ v ≤ INT_MAX

instance (v : Int) : Decidable (inRange v) :=
  inferInstanceAs (Decidable (INT_MIN ≤ v ∧ v ≤ INT_MAX))

/-- Overflow-checked signed addition: signed `int` overflow is undefined
behavior in the C source, made explicit here as the absence of a result (the
CounterOverflow outcome of the specification). -/
def addChecked (a b : Int) : Option Int :=
  if inRange (a + b) then some (a + b) else none

/-- `graph_add_node` with `int` overflow of either counter made explicit. -/
def graph_add_node_checked (_id : Int) (s : GraphState) :
    Option (Int × GraphState) :=
  match addChecked s.nodes 1 with
  | none => none
  | some nodes =>
    if nodes > 1 then
      match addChecked s.edges 1 with
      | none => none
      | some edges => some (nodes, ⟨nodes, edges⟩)
    else some (nodes, ⟨nodes, s.edges⟩)

/-- Modelled from the spec: `plugin_answer` is declared in `plugins/plugin.h`,
whose source is not among the provided files; the spec classifies the plugin
stub as static scaffolding with no algorithmic content, external to the
counter, so it leaves the counter state unchanged. -/
def plugin_answer (s : GraphState) : GraphState := s

/-- The counter-relevant call sequence performed by `main` in `main.c`
(`graph_init(); graph_add_node(1); graph_add_node(2); plugin_answer();`),
ending with the `graph_edge_count()` value that `main` formats into its
status line. -/
def mainEdgeCount : Int :=
  let s0 := graph_init initialState
  let s1 := (graph_add_node 1 s0).2
  let s2 := (graph_add_node 2 s1).2
  let s3 := plugin_answer s2
  (graph_edge_count s3).1

/-- The two-counter invariant of the specification:
`edgeCount == max(nodeCount - 1, 0)`. -/
def Inv (s : GraphState) : Prop := s.edges = max (s.nodes - 1) 0

instance (s : GraphState) : Decidable (Inv s) :=
  inferInstanceAs (Decidable (s.edges = max (s.nodes - 1) 0))

/-- A single `graph_add_node` call preserves the two-counter invariant. -/
theorem add_node_preserves_Inv (id : Int) (s : GraphState) (h : Inv s) :
    Inv (graph_add_node id s).2 := by
  simp only [Inv, graph_add_node, add] at h ⊢
  split <;> omega

/-- Any sequence of `graph_add_node` calls preserves the invariant. -/
theorem runAdds_preserves_Inv (ids : List Int) (s : GraphState) (h : Inv s) :
    Inv (runAdds ids s).2 := by
  induction ids generalizing s with
  | nil => exact h
  | cons id rest ih => exact ih _ (add_node_preserves_Inv id s h)

/-- Any two `graph_add_node` sequences of equal length produce identical
returned values and identical final states, from any common start state. -/
theorem runAdds_only_length (ids1 ids2 : List Int) (s : GraphState)
    (h : ids1.length = ids2.length) : runAdds ids1 s = runAdds ids2 s := by
  induction ids1 generalizing ids2 s with
  | nil =>
    cases ids2 with
    | nil => rfl
    | cons b bs => simp at h
  | cons a as ih =>
    cases ids2 with
    | nil => simp at h
    | cons b bs =>
      have hlen : as.length = bs.length := by simpa using h
      simp only [runAdds]
      rw [show graph_add_node a s = graph_add_node b s from rfl,
        ih bs (graph_add_node b s).2 hlen]

/-- A single `graph_add_node` call never decreases either counter. -/
theorem add_node_mono (id : Int) (s : GraphState) :
    s.nodes ≤ (graph_add_node id s).2.nodes ∧
    s.edges ≤ (graph_add_node id s).2.edges := by
  simp only [graph_add_node, add]
  refine ⟨by omega, ?_⟩
  split <;> omega

/-- A sequence of `graph_add_node` calls never decreases either counter. -/
theorem runAdds_mono (ids : List Int) (s : GraphState) :
    s.nodes ≤ (runAdds ids s).2.nodes ∧ s.edges ≤ (runAdds ids s).2.edges := by
  induction ids generalizing s with
  | nil => exact ⟨le_refl _, le_refl _⟩
  | cons id rest ih =>
    have h1 := add_node_mono id s
    have h2 := ih (graph_add_node id s).2
    exact ⟨le_trans h1.1 h2.1, le_trans h1.2 h2.2⟩

/-- `graph_add_node_checked` fails exactly when an increment would leave the
representable range. -/
theorem add_node_checked_none_iff (id : Int) (s : GraphState) :
    graph_add_node_checked id s = none ↔
      ¬inRange (s.nodes + 1) ∨
        (s.nodes + 1 > 1 ∧ ¬inRange (s.edges + 1)) := by
  by_cases h1 : inRange (s.nodes + 1)
  · by_cases h2 : s.nodes + 1 > 1
    · by_cases h3 : inRange (s.edges + 1)
      · simp [graph_add_node_checked, addChecked, h1, h2, h3]
      · simp [graph_add_node_checked, addChecked, h1, h2, h3]
    · simp [graph_add_node_checked, addChecked, h1, h2]
  · simp [graph_add_node_checked, addChecked, h1]

/-- Wherever `graph_add_node_checked` succeeds, it agrees with the unbounded
`graph_add_node`. -/
theorem add_node_checked_agree (id : Int) (s : GraphState) :
    graph_add_node_checked id s = none ∨
      graph_add_node_checked id s = some (graph_add_node id s) := by
  by_cases h1 : inRange (s.nodes + 1)
  · by_cases h2 : s.nodes + 1 > 1
    · by_cases h3 : inRange (s.edges + 1)
      · right
        simp [graph_add_node_checked, addChecked, graph_add_node, add, h1, h2,
          h3]
      · left; simp [graph_add_node_checked, addChecked, h1, h2, h3]
    · right
      simp [graph_add_node_checked, addChecked, graph_add_node, add, h1, h2]
  · left; simp [graph_add_node_checked, addChecked, h1]

/-- C1: after a reset, `edgeCount == max(nodeCount - 1, 0)` holds after every
sequence of `addNode` calls (hence after every call, each prefix being such a
sequence); the invariant holds in every post-reset state and is preserved by
`graph_add_node` and by `graph_edge_count`. -/
theorem C1_invariant_reachable :
    (∀ s, Inv (graph_init s)) ∧
    (∀ id s, Inv s → Inv (graph_add_node id s).2) ∧
    (∀ s, Inv s → Inv (graph_edge_count s).2) ∧
    (∀ ids s, Inv (runAdds ids (graph_init s)).2) := by
  have hinit : ∀ s, Inv (graph_init s) := fun s =>
    (by decide : Inv (⟨0, 0⟩ : GraphState))
  refine ⟨hinit, add_node_preserves_Inv, fun s h => h, ?_⟩
  intro ids s
  exact runAdds_preserves_Inv ids (graph_init s) (hinit s)

/-- Witness for C1 at concrete inputs. -/
theorem C1_invariant_reachable_witness :
    Inv (graph_add_node 7 ⟨3, 2⟩).2 ∧
    Inv (runAdds [5, 5, -1] (graph_init ⟨9, 4⟩)).2 :=
  ⟨C1_invariant_reachable.2.1 7 ⟨3, 2⟩ (by decide),
    C1_invariant_reachable.2.2.2 [5, 5, -1] ⟨9, 4⟩⟩

/-- C2: a single `addNode` call maps state (n, e) to (n + 1, e + 1) when
n + 1 > 1 and to (n + 1, e) otherwise, returning the new node count; in
particular the first node added after a reset contributes no edge. -/
theorem C2_add_node_step :
    (∀ id n e, graph_add_node id ⟨n, e⟩ =
      (n + 1, ⟨n + 1, if n + 1 > 1 then e + 1 else e⟩)) ∧
    (∀ id s, (graph_add_node id (graph_init s)).2.edges = 0) :=
  ⟨fun _ _ _ => rfl, fun _ _ => rfl⟩

/-- C3: `addNode` returns the new node count, one more than before the call,
and this return value equals the node counter stored in the new state. -/
theorem C3_add_node_returns_new_count (id : Int) (s : GraphState) :
    (graph_add_node id s).1 = s.nodes + 1 ∧
    (graph_add_node id s).1 = (graph_add_node id s).2.nodes :=
  ⟨rfl, rfl⟩

/-- C4: reset is idempotent and absorbing: resetting twice equals resetting
once, resetting after any insertion sequence from any state equals resetting
from the initial state, and every post-reset state has both counters zero. -/
theorem C4_reset_idempotent_absorbing :
    (∀ s, graph_init (graph_init s) = graph_init s) ∧
    (∀ ids s, graph_init (runAdds ids s).2 = graph_init initialState) ∧
    (∀ s, (graph_init s).nodes = 0 ∧ (graph_init s).edges = 0) :=
  ⟨fun _ => rfl, fun _ _ => rfl, fun _ => ⟨rfl, rfl⟩⟩

/-- C5: id noninterference: two `addNode` sequences of equal length produce
the same list of returned values and the same final `edgeCount`, whatever
integers are passed as ids. -/
theorem C5_id_noninterference (ids1 ids2 : List Int) (s : GraphState)
    (h : ids1.length = ids2.length) :
    (runAdds ids1 s).1 = (runAdds ids2 s).1 ∧
    (graph_edge_count (runAdds ids1 s).2).1 =
      (graph_edge_count (runAdds ids2 s).2).1 := by
  rw [runAdds_only_length ids1 ids2 s h]
  exact ⟨rfl, rfl⟩

/-- Witness for C5 at concrete inputs. -/
theorem C5_id_noninterference_witness :
    (runAdds [1, 2, 3] initialState).1 =
      (runAdds [-7, 0, -7] initialState).1 ∧
    (graph_edge_count (runAdds [1, 2, 3] initialState).2).1 =
      (graph_edge_count (runAdds [-7, 0, -7] initialState).2).1 :=
  C5_id_noninterference [1, 2, 3] [-7, 0, -7] initialState (by decide)

/-- C6: both counters are non-decreasing: each single `addNode` call, and
hence any sequence of `addNode` calls with no intervening reset, never
decreases `nodeCount` or the value returned by `edgeCount`. -/
theorem C6_monotonic :
    (∀ id s, s.nodes ≤ (graph_add_node id s).2.nodes ∧
      (graph_edge_count s).1 ≤
        (graph_edge_count (graph_add_node id s).2).1) ∧
    (∀ ids s, s.nodes ≤ (runAdds ids s).2.nodes ∧
      (graph_edge_count s).1 ≤ (graph_edge_count (runAdds ids s).2).1) :=
  ⟨fun id s => add_node_mono id s, fun ids s => runAdds_mono ids s⟩

/-- C7: `edgeCount` is a pure read: it returns the current edge counter,
leaves the whole state unchanged, and a repeated call with no mutation in
between returns the same value. -/
theorem C7_edge_count_pure (s : GraphState) :
    (graph_edge_count s).1 = s.edges ∧
    (graph_edge_count s).2 = s ∧
    (graph_edge_count (graph_edge_count s).2).1 = (graph_edge_count s).1 :=
  ⟨rfl, rfl, rfl⟩

/-- C8: totality: in every representable state and for every id, the
overflow-checked `addNode` fails exactly when an increment would exceed the
representable range (the CounterOverflow case), and whenever it succeeds it
agrees with the unbounded semantics; `reset` and `edgeCount` are total
functions by construction. -/
theorem C8_totality (id : Int) (s : GraphState)
    (hn : inRange s.nodes) (he : inRange s.edges) :
    (graph_add_node_checked id s = none ↔
      (s.nodes = INT_MAX ∨ (1 ≤ s.nodes ∧ s.edges = INT_MAX))) ∧
    (graph_add_node_checked id s = none ∨
      graph_add_node_checked id s = some (graph_add_node id s)) := by
  refine ⟨?_, add_node_checked_agree id s⟩
  rw [add_node_checked_none_iff]
  simp only [inRange, INT_MAX, INT_MIN] at hn he ⊢
  omega

/-- Witness for C8 at concrete inputs. -/
theorem C8_totality_witness :
    (graph_add_node_checked 42 ⟨0, 0⟩ = none ↔
      ((0 : Int) = INT_MAX ∨ (1 ≤ (0 : Int) ∧ (0 : Int) = INT_MAX))) ∧
    (graph_add_node_checked 42 ⟨0, 0⟩ = none ∨
      graph_add_node_checked 42 ⟨0, 0⟩ = some (graph_add_node 42 ⟨0, 0⟩)) :=
  C8_totality 42 ⟨0, 0⟩ (by decide) (by decide)

/-- C9: the statically initialized state already has both counters zero and is
exactly the post-reset state, so any `addNode` sequence behaves identically
whether or not `reset` is ever called first. -/
theorem C9_static_init :
    initialState.nodes = 0 ∧ initialState.edges = 0 ∧
    (∀ s, graph_init s = initialState) ∧
    (∀ ids s, runAdds ids initialState = runAdds ids (graph_init s)) :=
  ⟨rfl, rfl, fun _ => rfl, fun _ _ => rfl⟩

/-- C10: `main` performs reset; addNode(1); addNode(2) (followed by the
counter-neutral plugin call), and the edge count it prints in its status line
is 1. -/
theorem C10_main_edges :
    mainEdgeCount = 1 ∧
    mainEdgeCount =
      (graph_edge_count
        (graph_add_node 2 (graph_add_node 1 (graph_init initialState)).2).2).1 :=
  ⟨rfl, rfl⟩

end GraphCounter
